import Mathlib

/-!
Verification of the invoice mutation pipeline in `src/app/lib/actions.ts`.

The file shallowly embeds the three server actions `createInvoice`,
`updateInvoice` and `deleteInvoice`, together with the zod schema
`FormSchema` (and its `omit({ id: true, date: true })` derivatives
`CreateInvoice` / `UpdateInvoice`), the monetary normalizer
(`amount * 100`), the current-date computation
(`new Date().toISOString().split('T')[0]`), and the observable effects the
actions issue (SQL statements, `console.error` logging, `revalidatePath`).

Modelling choices, stated once here:
* `FormData` is modelled by the three keys the actions read
  (`customerId`, `amount`, `status`); `formData.get(k)` returns a string or
  `null`, modelled as `Option String` (the `File` branch of
  `FormDataEntryValue` is outside the model).
* JavaScript numbers are modelled by `ℚ`, with `none` standing for `NaN`.
  `jsNumber` models the `Number()` coercion performed by
  `z.coerce.number()` on the decimal and scientific literal forms
  (optional sign, digits, fraction, exponent) after whitespace trimming;
  `Number(null) = 0` and `Number("") = 0` are modelled exactly.  Exotic
  numeric forms (hexadecimal literals, `"Infinity"`) are outside the model.
  On the concrete inputs used below, IEEE double arithmetic and `ℚ`
  arithmetic agree (`0.01 * 100 = 1`, `100 * 100 = 10000`,
  `12.5 * 100 = 1250` hold exactly in doubles).
* The zod semantics embedded per field (zod v3):
  - `z.string({ invalid_type_error: m })` on `null` raises an
    `invalid_type` issue whose message is the custom `m`.
  - `z.coerce.number().gt(0, { message: m })` first coerces with
    `Number()`; when the result is `NaN` the type check fails with the
    DEFAULT message `"Expected number, received nan"` and the `gt` check is
    skipped, so the custom `gt` message only appears when coercion produced
    a number `≤ 0`.
  - `z.enum([...], { invalid_type_error: m })`: zod's error map built by
    `processCreateParams` applies `invalid_type_error` only to
    `invalid_type` issues.  A `null` input is an `invalid_type` issue and
    gets `m`; a string outside the enumeration raises `invalid_enum_value`,
    which falls through to the DEFAULT message
    `"Invalid enum value. Expected 'pending' | 'paid', received '<s>'"`.
  - `safeParse` on an object validates every field and accumulates all
    issues; `error.flatten().fieldErrors` groups the messages by field
    name.  We represent a field with no errors by the empty list (the
    runtime object simply omits the key).
* Persistence, logging, cache invalidation and navigation are modelled as
  an effect trace (`List Effect`).  A thrown-and-uncaught error is an
  `Except.error`; `redirect(..)` (which ends the action) is modelled as the
  `redirected` result.  The database outcome of a SQL statement is an
  explicit parameter (`DbOutcome`), and the current UTC time another
  (`UTCDateTime`), since both are environment inputs of the action.
-/

/-- The three form keys read by the actions; `none` models a `null` result
of `formData.get`. -/
structure FormData where
  customerId : Option String
  amount : Option String
  status : Option String
  deriving DecidableEq

/-- The invoice status enumeration `['pending', 'paid']`. -/
inductive Status where
  | pending
  | paid
  deriving DecidableEq

/-- The text form of a status, as interpolated into the SQL statements. -/
def statusText : Status → String
  | .pending => "pending"
  | .paid => "paid"

/-- JS `Number()`: strip leading and trailing whitespace. -/
def jsTrim (cs : List Char) : List Char :=
  ((cs.dropWhile Char.isWhitespace).reverse.dropWhile Char.isWhitespace).reverse

/-- Value of a digit string, most significant digit first. -/
def digitsVal (cs : List Char) : ℕ :=
  cs.foldl (fun n c => 10 * n + (c.toNat - 48)) 0

/-- Parse an unsigned decimal literal (`123`, `123.45`, `.45`, `123.`),
returning its value and the unconsumed remainder; `none` models `NaN`. -/
def parseUnsignedDec (cs : List Char) : Option (ℚ × List Char) :=
  let ip := cs.takeWhile Char.isDigit
  let r1 := cs.dropWhile Char.isDigit
  match r1 with
  | '.' :: cs2 =>
    let fp := cs2.takeWhile Char.isDigit
    let r2 := cs2.dropWhile Char.isDigit
    if ip.isEmpty && fp.isEmpty then none
    else some ((digitsVal ip : ℚ) + (digitsVal fp : ℚ) / (10 : ℚ) ^ fp.length, r2)
  | _ => if ip.isEmpty then none else some ((digitsVal ip : ℚ), r1)

/-- Parse an exponent suffix body (after `e`/`E`): optional sign then
digits, which must consume the whole remainder. -/
def expPart (q : ℚ) (cs : List Char) : Option ℚ :=
  let sgnDs : Bool × List Char :=
    match cs with
    | '-' :: t => (false, t)
    | '+' :: t => (true, t)
    | t => (true, t)
  if sgnDs.2.isEmpty || !sgnDs.2.all Char.isDigit then none
  else if sgnDs.1 then some (q * (10 : ℚ) ^ digitsVal sgnDs.2)
  else some (q / (10 : ℚ) ^ digitsVal sgnDs.2)

/-- Consume an optional exponent suffix; any other leftover input means the
whole literal is not numeric (`NaN`). -/
def applyExp (q : ℚ) (cs : List Char) : Option ℚ :=
  match cs with
  | [] => some q
  | 'e' :: rest => expPart q rest
  | 'E' :: rest => expPart q rest
  | _ => none

/-- JS `Number(s)` for a string `s`, on the literal forms covered by the
model: whitespace-trimmed, empty means `0`, otherwise an optionally signed
decimal literal with optional exponent.  `none` models `NaN`. -/
def jsNumberOfChars (cs0 : List Char) : Option ℚ :=
  let cs := jsTrim cs0
  if cs.isEmpty then some 0
  else
    let sgnBody : Bool × List Char :=
      match cs with
      | '-' :: t => (false, t)
      | '+' :: t => (true, t)
      | t => (true, t)
    match parseUnsignedDec sgnBody.2 with
    | none => none
    | some (q, rest) =>
      match applyExp q rest with
      | none => none
      | some q2 => some (if sgnBody.1 then q2 else -q2)

/-- JS `Number(v)` for a `formData.get` result: `Number(null) = 0`.
`none` in the result models `NaN`. -/
def jsNumber : Option String → Option ℚ
  | none => some 0
  | some s => jsNumberOfChars s.data

/-- The message of `invalid_type_error` on the `customerId` field
(`actions.ts` line 13). -/
def customerIdErrorMsg : String := "Please select a customer."

/-- The message of the `.gt(0, ...)` check on `amount`
(`actions.ts` line 16). -/
def gtErrorMsg : String := "Please enter an amount greater than $0."

/-- zod's default `invalid_type` message when `Number()` coercion yielded
`NaN` (no custom `invalid_type_error` is configured on `amount`). -/
def nanErrorMsg : String := "Expected number, received nan"

/-- The message of `invalid_type_error` on the `status` field
(`actions.ts` line 18); per zod semantics it applies only to
`invalid_type` issues (a `null` input), not to `invalid_enum_value`. -/
def statusErrorMsg : String := "Please select an invoice status."

/-- A single-quote character, used to spell zod's default enum message. -/
def quoteChar : String := String.singleton (Char.ofNat 39)

/-- zod's default message for an `invalid_enum_value` issue on
`z.enum(['pending', 'paid'])` with the received string interpolated. -/
def enumDefaultMsg (received : String) : String :=
  "Invalid enum value. Expected " ++ quoteChar ++ "pending" ++ quoteChar ++
    " | " ++ quoteChar ++ "paid" ++ quoteChar ++ ", received " ++
    quoteChar ++ received ++ quoteChar

/-- `z.string({ invalid_type_error })` applied to a `formData.get` result:
a string passes unchanged, `null` is an `invalid_type` issue carrying the
custom message when one is configured, zod's default otherwise. -/
def zString (invalidTypeError : Option String) :
    Option String → Except (List String) String
  | some s => .ok s
  | none => .error [invalidTypeError.getD "Expected string, received null"]

/-- `z.coerce.number().gt(0, { message: gtErrorMsg })` (`actions.ts`
lines 15-16): coerce with `Number()`; `NaN` fails the type check with the
default message and skips the `gt` check; a number passes iff `> 0`. -/
def zAmount (v : Option String) : Except (List String) ℚ :=
  match jsNumber v with
  | none => .error [nanErrorMsg]
  | some q => if 0 < q then .ok q else .error [gtErrorMsg]

/-- `z.enum(['pending','paid'], { invalid_type_error: statusErrorMsg })`
(`actions.ts` lines 17-19): `null` is `invalid_type` (custom message); a
string outside the enumeration is `invalid_enum_value` (default message). -/
def zStatus : Option String → Except (List String) Status
  | none => .error [statusErrorMsg]
  | some s =>
    if s = "pending" then .ok .pending
    else if s = "paid" then .ok .paid
    else .error [enumDefaultMsg s]

/-- The field validators of `FormSchema` (`actions.ts` lines 10-21):
`id` and `date` are plain `z.string()`, the other three as above. -/
structure FieldParsers where
  idField : Option String → Except (List String) String
  customerId : Option String → Except (List String) String
  amount : Option String → Except (List String) ℚ
  status : Option String → Except (List String) Status
  dateField : Option String → Except (List String) String

/-- `FormSchema` itself. -/
def FormSchema : FieldParsers :=
  ⟨zString none, zString (some customerIdErrorMsg), zAmount, zStatus, zString none⟩

/-- A schema over the three submitted fields, as produced by
`FormSchema.omit({ id: true, date: true })`. -/
structure MutationSchema where
  customerId : Option String → Except (List String) String
  amount : Option String → Except (List String) ℚ
  status : Option String → Except (List String) Status

/-- `omit({ id: true, date: true })`: drop the `id` and `date` validators,
keep the other three unchanged. -/
def FieldParsers.omitIdDate (f : FieldParsers) : MutationSchema :=
  ⟨f.customerId, f.amount, f.status⟩

/-- `const CreateInvoice = FormSchema.omit({ id: true, date: true })`
(`actions.ts` line 23). -/
def CreateInvoice : MutationSchema := FormSchema.omitIdDate

/-- `const UpdateInvoice = FormSchema.omit({ id: true, date: true })`
(`actions.ts` line 24). -/
def UpdateInvoice : MutationSchema := FormSchema.omitIdDate

/-- `error.flatten().fieldErrors`: the messages grouped per field; an empty
list models a field key absent from the runtime object. -/
structure FieldErrors where
  customerId : List String
  amount : List String
  status : List String
  deriving DecidableEq

/-- `validatedFields.data`: the strongly typed record produced by a
successful parse. -/
structure ValidatedFields where
  customerId : String
  amount : ℚ
  status : Status
  deriving DecidableEq

/-- The error list of one field result (empty when the field passed). -/
def errList {α : Type} : Except (List String) α → List String
  | .ok _ => []
  | .error es => es

/-- `safeParse` of an omitted schema on the three extracted form values:
every field is validated and ALL issues are accumulated; the parse succeeds
iff every field does. -/
def MutationSchema.safeParse (m : MutationSchema) (fd : FormData) :
    Except FieldErrors ValidatedFields :=
  match m.customerId fd.customerId, m.amount fd.amount, m.status fd.status with
  | .ok c, .ok a, .ok s => .ok ⟨c, a, s⟩
  | rc, ra, rs => .error ⟨errList rc, errList ra, errList rs⟩

/-- The current UTC instant, as the components that
`new Date().toISOString()` prints.  The JS `Date` invariant keeps every
component in its calendar range; the model takes them as plain naturals. -/
structure UTCDateTime where
  year : ℕ
  month : ℕ
  day : ℕ
  hour : ℕ
  minute : ℕ
  second : ℕ
  ms : ℕ
  deriving DecidableEq

/-- The character of a decimal digit. -/
def digitChar (n : ℕ) : Char := Char.ofNat (48 + n % 10)

/-- Two-digit zero-padded field of `toISOString`. -/
def pad2c (n : ℕ) : List Char := [digitChar (n / 10), digitChar n]

/-- Three-digit zero-padded milliseconds field of `toISOString`. -/
def pad3c (n : ℕ) : List Char := [digitChar (n / 100), digitChar (n / 10), digitChar n]

/-- Four-digit zero-padded year field of `toISOString`. -/
def pad4c (n : ℕ) : List Char := [digitChar (n / 1000), digitChar (n / 100), digitChar (n / 10), digitChar n]

/-- `new Date().toISOString()`: the `YYYY-MM-DDTHH:mm:ss.sssZ` rendering of
the current UTC instant. -/
def toISOString (d : UTCDateTime) : String :=
  ⟨pad4c d.year ++ '-' :: pad2c d.month ++ '-' :: pad2c d.day ++
    'T' :: pad2c d.hour ++ ':' :: pad2c d.minute ++ ':' :: pad2c d.second ++
    '.' :: pad3c d.ms ++ ['Z']⟩

/-- `s.split('T')[0]`: the prefix of `s` before its first `'T'` (or all of
`s` when `'T'` does not occur). -/
def jsSplitHeadT (s : String) : String := ⟨s.data.takeWhile (fun c => c != 'T')⟩

/-- `new Date().toISOString().split('T')[0]` (`actions.ts` line 56). -/
def currentDate (d : UTCDateTime) : String := jsSplitHeadT (toISOString d)

/-- The `YYYY-MM-DD` rendering of a UTC calendar date. -/
def ymdString (d : UTCDateTime) : String :=
  ⟨pad4c d.year ++ '-' :: pad2c d.month ++ '-' :: pad2c d.day⟩

/-- The monetary normalizer `const amountInCents = amount * 100`
(`actions.ts` lines 55 and 91). -/
def amountInCents (amount : ℚ) : ℚ := amount * 100

/-- The observable interactions of an action with its environment, in
order: SQL statements sent to the store, `console.error` logging, and
`revalidatePath`.  (`redirect` ends the action and is part of the result,
not of the trace.) -/
inductive Effect where
  | sqlInsert (customer_id : String) (amount : ℚ) (status : String) (date : String)
  | sqlUpdate (id : String) (customer_id : String) (amount : ℚ) (status : String)
  | sqlDelete (id : String)
  | consoleError (msg : String)
  | revalidate (path : String)
  deriving DecidableEq

/-- Whether the persistence layer accepts or rejects the SQL statement an
action sends; a rejection is what the `catch` blocks observe. -/
inductive DbOutcome where
  | ok
  | fail (err : String)
  deriving DecidableEq

/-- The `State` type of `actions.ts` (lines 26-33), also the type of the
unused `prevState` argument. -/
structure State where
  errors : Option FieldErrors
  message : Option String
  deriving DecidableEq

/-- What an action invocation ends with: the returned
`{ errors, message }` object on validation failure, a `redirect` (which in
Next.js leaves the action by a control-flow throw), or plain completion. -/
inductive ActionResult where
  | validationError (errors : FieldErrors) (message : String)
  | redirected (path : String)
  | completed
  deriving DecidableEq

/-- The path revalidated and redirected to by all three actions. -/
def invoicesPath : String := "/dashboard/invoices"

/-- `createInvoice(prevState, formData)` (`actions.ts` lines 35-69).
`safeParse` failure returns the error object before any store interaction;
on success the insert is attempted, a rejection is caught and only logged
(`console.error`), and `revalidatePath` + `redirect` run unconditionally.
(The second `CreateInvoice.parse` on the same three fields yields the
already-computed `validatedFields.data` and is not a separate model step.)
The result is paired with the trace of issued effects. -/
def createInvoice (db : DbOutcome) (now : UTCDateTime) (prevState : State)
    (fd : FormData) : Except String ActionResult × List Effect :=
  match CreateInvoice.safeParse fd with
  | .error errs =>
    (.ok (.validationError errs "Missing Fields. Failed to Create Invoice."), [])
  | .ok v =>
    let date : String := currentDate now
    let attempted : List Effect :=
      [Effect.sqlInsert v.customerId (amountInCents v.amount) (statusText v.status) date]
    let afterTry : List Effect :=
      match db with
      | .ok => attempted
      | .fail err => attempted ++ [Effect.consoleError ("Error creating invoice: " ++ err)]
    (.ok (.redirected invoicesPath), afterTry ++ [Effect.revalidate invoicesPath])

/-- `updateInvoice(id, prevState, formData)` (`actions.ts` lines 71-105):
same pipeline as create, with the `UPDATE ... WHERE id` statement, no date
computation, and the update-specific messages. -/
def updateInvoice (db : DbOutcome) (id : String) (prevState : State)
    (fd : FormData) : Except String ActionResult × List Effect :=
  match UpdateInvoice.safeParse fd with
  | .error errs =>
    (.ok (.validationError errs "Missing Fields. Failed to Update Invoice."), [])
  | .ok v =>
    let attempted : List Effect :=
      [Effect.sqlUpdate id v.customerId (amountInCents v.amount) (statusText v.status)]
    let afterTry : List Effect :=
      match db with
      | .ok => attempted
      | .fail err => attempted ++ [Effect.consoleError ("Error updating invoice: " ++ err)]
    (.ok (.redirected invoicesPath), afterTry ++ [Effect.revalidate invoicesPath])

/-- The unconditional `throw new Error('Failed to Delete Invoice')` at the
top of `deleteInvoice` (`actions.ts` line 108). -/
def throwDeleteError : Except String Unit := .error "Failed to Delete Invoice"

/-- `deleteInvoice(id)` (`actions.ts` lines 107-114): the function throws
before its own logic; the `DELETE` statement and the `revalidatePath` call
that follow it in the source are kept in the model as the continuation of
the (never taken) non-throwing branch.  There is no `try`/`catch`, so a
store rejection in that branch would also escape as a fatal error. -/
def deleteInvoice (db : DbOutcome) (id : String) :
    Except String ActionResult × List Effect :=
  match throwDeleteError with
  | .error e => (.error e, [])
  | .ok _ =>
    match db with
    | .ok => (.ok .completed, [Effect.sqlDelete id, Effect.revalidate invoicesPath])
    | .fail e => (.error e, [Effect.sqlDelete id])

/-- A row of the `invoices` table, with the columns the statements in
`actions.ts` touch. -/
structure InvoiceRow where
  id : String
  customer_id : String
  amount : ℚ
  status : String
  date : String
  deriving DecidableEq

/-- The store-side semantics of
`UPDATE invoices SET customer_id = _, amount = _, status = _ WHERE id = _`
(`actions.ts` lines 94-98): every row whose `id` matches gets the three
assigned columns replaced; all other columns and rows are untouched. -/
def applySqlUpdate (rows : List InvoiceRow) (id customer_id : String)
    (amount : ℚ) (status : String) : List InvoiceRow :=
  rows.map fun r =>
    if r.id = id then ⟨r.id, customer_id, amount, status, r.date⟩ else r

/-- Digit characters are never the separator `'T'`. -/
lemma digitChar_ne_T (n : ℕ) : (digitChar n != 'T') = true := by
  have h : n % 10 < 10 := Nat.mod_lt n (by norm_num)
  have hall : ∀ k : Fin 10, (Char.ofNat (48 + (k : ℕ)) != 'T') = true := by decide
  simpa [digitChar] using hall ⟨n % 10, h⟩

/-- `takeWhile` passes over a prefix on which the predicate holds. -/
lemma takeWhile_append_all {α : Type} (p : α → Bool) (xs ys : List α)
    (h : ∀ x ∈ xs, p x = true) :
    (xs ++ ys).takeWhile p = xs ++ ys.takeWhile p := by
  induction xs with
  | nil => simp
  | cons a t ih =>
    have ha := h a (List.mem_cons_self a t)
    have ht : ∀ x ∈ t, p x = true := fun x hx => h x (List.mem_cons_of_mem a hx)
    simp [List.takeWhile_cons, ha, ih ht]

/-- Splitting `toISOString` at `'T'` and keeping the head yields exactly
the `YYYY-MM-DD` date part. -/
lemma currentDate_eq_ymd (d : UTCDateTime) : currentDate d = ymdString d := by
  unfold currentDate jsSplitHeadT toISOString ymdString
  have hall : ∀ x ∈ pad4c d.year ++ '-' :: pad2c d.month ++ '-' :: pad2c d.day,
      (x != 'T') = true := by
    intro x hx
    simp [pad4c, pad2c, List.mem_append, List.mem_cons] at hx
    rcases hx with rfl | rfl | rfl | rfl | rfl | rfl | rfl | rfl | rfl | rfl <;>
      first
      | exact digitChar_ne_T _
      | decide
  have hassoc :
      (pad4c d.year ++ '-' :: pad2c d.month ++ '-' :: pad2c d.day ++
        'T' :: pad2c d.hour ++ ':' :: pad2c d.minute ++ ':' :: pad2c d.second ++
        '.' :: pad3c d.ms ++ ['Z']) =
      (pad4c d.year ++ '-' :: pad2c d.month ++ '-' :: pad2c d.day) ++
        ('T' :: (pad2c d.hour ++ ':' :: pad2c d.minute ++ ':' :: pad2c d.second ++
          '.' :: pad3c d.ms ++ ['Z'])) := by
    simp
  congr 1
  rw [hassoc, takeWhile_append_all (fun c => c != 'T') _ _ hall]
  simp [List.takeWhile_cons]

/-- Row-by-row description of `applySqlUpdate`: dates and ids are
preserved everywhere, matching rows get exactly the three assigned
columns, non-matching rows are untouched. -/
lemma applySqlUpdate_forall2 (rows : List InvoiceRow) (i c : String) (a : ℚ) (s : String) :
    List.Forall₂ (fun old new =>
      new.date = old.date ∧ new.id = old.id ∧
      (old.id = i → new.customer_id = c ∧ new.amount = a ∧ new.status = s) ∧
      (old.id ≠ i → new = old)) rows (applySqlUpdate rows i c a s) := by
  induction rows with
  | nil => simp [applySqlUpdate]
  | cons r t ih =>
    refine List.Forall₂.cons ?_ ?_
    · by_cases h : r.id = i <;> simp [applySqlUpdate, h]
    · simpa [applySqlUpdate] using ih

/-- On a parse failure, the accumulated error record is exactly the
per-field error lists of the three validators. -/
lemma safeParse_error_eq (m : MutationSchema) (fd : FormData) (e : FieldErrors)
    (h : m.safeParse fd = .error e) :
    e = ⟨errList (m.customerId fd.customerId), errList (m.amount fd.amount),
         errList (m.status fd.status)⟩ := by
  unfold MutationSchema.safeParse at h
  cases hc : m.customerId fd.customerId <;> cases ha : m.amount fd.amount <;>
    cases hs : m.status fd.status <;> rw [hc, ha, hs] at h <;>
      simp_all [errList]

/-- A failing `amount` field forces the whole parse to fail, with that
field's messages and the other two fields' own error lists. -/
lemma safeParse_error_of_amount (m : MutationSchema) (fd : FormData) (msgs : List String)
    (ha : m.amount fd.amount = .error msgs) :
    m.safeParse fd = .error ⟨errList (m.customerId fd.customerId), msgs,
      errList (m.status fd.status)⟩ := by
  unfold MutationSchema.safeParse
  rw [ha]
  cases hc : m.customerId fd.customerId <;> cases hs : m.status fd.status <;>
    simp [errList]

/-- A failing `status` field forces the whole parse to fail, with that
field's messages and the other two fields' own error lists. -/
lemma safeParse_error_of_status (m : MutationSchema) (fd : FormData) (msgs : List String)
    (hs : m.status fd.status = .error msgs) :
    m.safeParse fd = .error ⟨errList (m.customerId fd.customerId),
      errList (m.amount fd.amount), msgs⟩ := by
  unfold MutationSchema.safeParse
  rw [hs]
  cases hc : m.customerId fd.customerId <;> cases ha : m.amount fd.amount <;>
    simp [errList]

/-- C1: for every id (and whatever the store would have answered),
`deleteInvoice(id)` ends in the fatal failure `Failed to Delete Invoice`
with an empty effect trace: neither the `DELETE` statement nor the
`revalidatePath` call is ever reached. -/
theorem deleteInvoice_fatal_before_store (db : DbOutcome) (id : String) :
    deleteInvoice db id = (.error "Failed to Delete Invoice", ([] : List Effect)) := by
  rfl

/-- C2: for every payload that passes validation, a persistence-layer
failure during `createInvoice` or `updateInvoice` is caught and only
logged; the action still revalidates the invoices listing and ends in the
redirect, and its caller-visible outcome is identical to the one of a
successful write. -/
theorem persistence_failure_swallowed (now : UTCDateTime) (st : State) (fd : FormData)
    (i err : String) (v : ValidatedFields) (h : CreateInvoice.safeParse fd = .ok v) :
    (createInvoice (.fail err) now st fd).1 = .ok (.redirected invoicesPath) ∧
    (createInvoice (.fail err) now st fd).1 = (createInvoice .ok now st fd).1 ∧
    Effect.consoleError ("Error creating invoice: " ++ err) ∈ (createInvoice (.fail err) now st fd).2 ∧
    Effect.revalidate invoicesPath ∈ (createInvoice (.fail err) now st fd).2 ∧
    (updateInvoice (.fail err) i st fd).1 = .ok (.redirected invoicesPath) ∧
    (updateInvoice (.fail err) i st fd).1 = (updateInvoice .ok i st fd).1 ∧
    Effect.consoleError ("Error updating invoice: " ++ err) ∈ (updateInvoice (.fail err) i st fd).2 ∧
    Effect.revalidate invoicesPath ∈ (updateInvoice (.fail err) i st fd).2 := by
  have h2 : UpdateInvoice.safeParse fd = .ok v := h
  simp [createInvoice, updateInvoice, h, h2]

/-- C2 witness: a concrete valid payload with a rejected insert still ends
in the redirect. -/
theorem persistence_failure_swallowed_witness :
    (createInvoice (.fail "boom") ⟨2026, 10, 11, 0, 0, 0, 0⟩ ⟨none, none⟩
      ⟨some "c1", some "5", some "pending"⟩).1 = .ok (.redirected invoicesPath) :=
  (persistence_failure_swallowed ⟨2026, 10, 11, 0, 0, 0, 0⟩ ⟨none, none⟩
    ⟨some "c1", some "5", some "pending"⟩ "i1" "boom" ⟨"c1", 5, .pending⟩
    (by with_unfolding_all rfl)).1

/-- C3: whenever validation fails, both actions return the error object
carrying ALL accumulated field errors (each failing field contributes its
own list, simultaneously) plus the operation's fixed summary message, and
the effect trace is empty, so no persistence call occurs; in particular a
missing `customerId` contributes `Please select a customer.`. -/
theorem validation_failure_returns_all_field_errors (db : DbOutcome) (now : UTCDateTime)
    (st : State) (fd : FormData) (i : String) (e : FieldErrors)
    (h : CreateInvoice.safeParse fd = .error e) :
    createInvoice db now st fd =
      (.ok (.validationError e "Missing Fields. Failed to Create Invoice."), []) ∧
    updateInvoice db i st fd =
      (.ok (.validationError e "Missing Fields. Failed to Update Invoice."), []) ∧
    e.customerId = errList (FormSchema.customerId fd.customerId) ∧
    e.amount = errList (FormSchema.amount fd.amount) ∧
    e.status = errList (FormSchema.status fd.status) ∧
    (fd.customerId = none → e.customerId = [customerIdErrorMsg]) := by
  have h2 : UpdateInvoice.safeParse fd = .error e := h
  have he := safeParse_error_eq CreateInvoice fd e h
  refine ⟨by simp [createInvoice, h], by simp [updateInvoice, h2], ?_, ?_, ?_, ?_⟩
  · rw [he]; rfl
  · rw [he]; rfl
  · rw [he]; rfl
  · intro hnone
    rw [he]
    simp [CreateInvoice, FormSchema, FieldParsers.omitIdDate, hnone, zString, errList]

/-- C3 witness: the payload missing all three fields accumulates all three
field errors at once and performs no effect. -/
theorem validation_failure_returns_all_field_errors_witness :
    createInvoice .ok ⟨2026, 10, 11, 0, 0, 0, 0⟩ ⟨none, none⟩ ⟨none, none, none⟩ =
      (.ok (.validationError ⟨[customerIdErrorMsg], [gtErrorMsg], [statusErrorMsg]⟩
        "Missing Fields. Failed to Create Invoice."), []) :=
  (validation_failure_returns_all_field_errors .ok ⟨2026, 10, 11, 0, 0, 0, 0⟩
    ⟨none, none⟩ ⟨none, none, none⟩ "i1"
    ⟨[customerIdErrorMsg], [gtErrorMsg], [statusErrorMsg]⟩
    (by with_unfolding_all rfl)).1

/-- C4 counterexample: the payload whose amount is `abc` fails `Number()`
coercion (`NaN`), and its `fieldErrors.amount` is the zod default type
error `Expected number, received nan` — the amount-greater-than-usd-0
message does NOT appear, contradicting the claim's `or fails coercion`
branch. -/
theorem amount_coercion_failure_message_cex :
    jsNumber (some "abc") = none ∧
    CreateInvoice.safeParse ⟨some "c1", some "abc", some "pending"⟩ =
      .error ⟨[], [nanErrorMsg], []⟩ ∧
    gtErrorMsg ∉ [nanErrorMsg] := by
  refine ⟨by with_unfolding_all rfl, by with_unfolding_all rfl, by decide⟩

/-- C4 amended: a payload whose amount coerces to a number `≤ 0` fails
validation with `Please enter an amount greater than $0.` as
`fieldErrors.amount` and no persistence call occurs; a payload whose
amount fails coercion (`NaN`) also fails validation with no persistence
call, but its `fieldErrors.amount` carries the coercion type error
`Expected number, received nan` instead of the amount message. -/
theorem amount_nonpositive_or_nan_fails (db : DbOutcome) (now : UTCDateTime)
    (st : State) (fd : FormData) :
    (∀ q : ℚ, jsNumber fd.amount = some q → q ≤ 0 →
      ∃ e : FieldErrors,
        createInvoice db now st fd =
          (.ok (.validationError e "Missing Fields. Failed to Create Invoice."), []) ∧
        e.amount = [gtErrorMsg]) ∧
    (jsNumber fd.amount = none →
      ∃ e : FieldErrors,
        createInvoice db now st fd =
          (.ok (.validationError e "Missing Fields. Failed to Create Invoice."), []) ∧
        e.amount = [nanErrorMsg]) := by
  constructor
  · intro q hq hle
    have ha : CreateInvoice.amount fd.amount = .error [gtErrorMsg] := by
      show zAmount fd.amount = .error [gtErrorMsg]
      unfold zAmount
      rw [hq]
      simp [not_lt.mpr hle]
    have hp := safeParse_error_of_amount CreateInvoice fd [gtErrorMsg] ha
    exact ⟨⟨errList (CreateInvoice.customerId fd.customerId), [gtErrorMsg],
      errList (CreateInvoice.status fd.status)⟩, by simp [createInvoice, hp], rfl⟩
  · intro hq
    have ha : CreateInvoice.amount fd.amount = .error [nanErrorMsg] := by
      show zAmount fd.amount = .error [nanErrorMsg]
      unfold zAmount
      rw [hq]
    have hp := safeParse_error_of_amount CreateInvoice fd [nanErrorMsg] ha
    exact ⟨⟨errList (CreateInvoice.customerId fd.customerId), [nanErrorMsg],
      errList (CreateInvoice.status fd.status)⟩, by simp [createInvoice, hp], rfl⟩

/-- C4 witness: the amount `0` coerces to `0 ≤ 0` and yields the amount
message with an empty effect trace. -/
theorem amount_nonpositive_or_nan_fails_witness :
    ∃ e : FieldErrors,
      createInvoice .ok ⟨2026, 10, 11, 0, 0, 0, 0⟩ ⟨none, none⟩ ⟨some "c1", some "0", some "pending"⟩ =
        (.ok (.validationError e "Missing Fields. Failed to Create Invoice."), []) ∧
      e.amount = [gtErrorMsg] :=
  (amount_nonpositive_or_nan_fails .ok ⟨2026, 10, 11, 0, 0, 0, 0⟩ ⟨none, none⟩
    ⟨some "c1", some "0", some "pending"⟩).1 0 (by with_unfolding_all rfl) (by norm_num)

/-- C5 counterexample: the present-but-invalid status string `foo` fails
validation with zod's default invalid-enum-value message, NOT with
`Please select an invoice status.`, contradicting the claim for payloads
whose status is present but outside the enumeration. -/
theorem status_invalid_enum_message_cex :
    CreateInvoice.safeParse ⟨some "c1", some "5", some "foo"⟩ =
      .error ⟨[], [], [enumDefaultMsg "foo"]⟩ ∧
    statusErrorMsg ∉ [enumDefaultMsg "foo"] := by
  refine ⟨by with_unfolding_all rfl, by decide⟩

/-- C5 amended: every payload whose status is not `pending`/`paid` fails
validation in both actions with no persistence call and a non-empty
`fieldErrors.status`; a MISSING status yields
`Please select an invoice status.`, while a present out-of-enumeration
string yields zod's default invalid-enum-value message instead. -/
theorem status_not_in_enum_fails (db : DbOutcome) (now : UTCDateTime) (i : String)
    (st : State) (fd : FormData)
    (h1 : fd.status ≠ some "pending") (h2 : fd.status ≠ some "paid") :
    ∃ e : FieldErrors,
      createInvoice db now st fd =
        (.ok (.validationError e "Missing Fields. Failed to Create Invoice."), []) ∧
      updateInvoice db i st fd =
        (.ok (.validationError e "Missing Fields. Failed to Update Invoice."), []) ∧
      e.status ≠ [] ∧
      (fd.status = none → e.status = [statusErrorMsg]) ∧
      (∀ s, fd.status = some s → e.status = [enumDefaultMsg s]) := by
  have hs : ∃ msg, CreateInvoice.status fd.status = .error [msg] ∧
      (fd.status = none → msg = statusErrorMsg) ∧
      (∀ s, fd.status = some s → msg = enumDefaultMsg s) := by
    cases hfd : fd.status with
    | none => exact ⟨statusErrorMsg, rfl, fun _ => rfl, fun s hs => by simp at hs⟩
    | some s =>
      have hp : s ≠ "pending" := fun hc => h1 (by rw [hfd, hc])
      have hq : s ≠ "paid" := fun hc => h2 (by rw [hfd, hc])
      refine ⟨enumDefaultMsg s, ?_, by simp, fun t ht => by simp at ht; rw [ht]⟩
      show zStatus (some s) = .error [enumDefaultMsg s]
      simp [zStatus, hp, hq]
  obtain ⟨msg, hmsg, hnone, hsome⟩ := hs
  have hp := safeParse_error_of_status CreateInvoice fd [msg] hmsg
  have hp2 : UpdateInvoice.safeParse fd =
      .error ⟨errList (CreateInvoice.customerId fd.customerId),
        errList (CreateInvoice.amount fd.amount), [msg]⟩ := hp
  refine ⟨⟨errList (CreateInvoice.customerId fd.customerId),
    errList (CreateInvoice.amount fd.amount), [msg]⟩,
    by simp [createInvoice, hp], by simp [updateInvoice, hp2], by simp, ?_, ?_⟩
  · intro hn
    simp [hnone hn]
  · intro s hsfd
    simp [hsome s hsfd]

/-- C5 witness: the out-of-enumeration status `foo` makes both actions
fail validation with no effects. -/
theorem status_not_in_enum_fails_witness :
    ∃ e : FieldErrors,
      createInvoice .ok ⟨2026, 10, 11, 0, 0, 0, 0⟩ ⟨none, none⟩ ⟨some "c1", some "5", some "foo"⟩ =
        (.ok (.validationError e "Missing Fields. Failed to Create Invoice."), []) ∧
      updateInvoice .ok "i1" ⟨none, none⟩ ⟨some "c1", some "5", some "foo"⟩ =
        (.ok (.validationError e "Missing Fields. Failed to Update Invoice."), []) ∧
      e.status ≠ [] ∧
      ((⟨some "c1", some "5", some "foo"⟩ : FormData).status = none → e.status = [statusErrorMsg]) ∧
      (∀ s, (⟨some "c1", some "5", some "foo"⟩ : FormData).status = some s →
        e.status = [enumDefaultMsg s]) :=
  status_not_in_enum_fails .ok ⟨2026, 10, 11, 0, 0, 0, 0⟩ "i1" ⟨none, none⟩
    ⟨some "c1", some "5", some "foo"⟩ (by decide) (by decide)

/-- C6: the monetary normalizer is multiplication of the validated amount
by 100, and on the spec's round-trip inputs it produces the integer minor
units 1 (from `0.01`), 10000 (from `100`) and 1250 (from `12.50`). -/
theorem amountInCents_normalizer :
    (∀ a : ℚ, amountInCents a = a * 100) ∧
    FormSchema.amount (some "0.01") = .ok (1 / 100) ∧
    amountInCents (1 / 100) = 1 ∧
    FormSchema.amount (some "100") = .ok 100 ∧
    amountInCents 100 = 10000 ∧
    FormSchema.amount (some "12.50") = .ok (25 / 2) ∧
    amountInCents (25 / 2) = 1250 := by
  refine ⟨fun a => rfl, by with_unfolding_all rfl, by with_unfolding_all rfl,
    by with_unfolding_all rfl, by with_unfolding_all rfl,
    by with_unfolding_all rfl, by with_unfolding_all rfl⟩

/-- C7: for every valid create payload, the first effect of
`createInvoice` is the `INSERT` whose `date` argument is the current UTC
calendar date rendered `YYYY-MM-DD` — a value computed from the clock
alone, never taken from the submitted payload. -/
theorem create_insert_uses_current_date (db : DbOutcome) (now : UTCDateTime)
    (st : State) (fd : FormData) (v : ValidatedFields)
    (h : CreateInvoice.safeParse fd = .ok v) :
    (createInvoice db now st fd).2.head? =
      some (Effect.sqlInsert v.customerId (amountInCents v.amount)
        (statusText v.status) (ymdString now)) ∧
    currentDate now = ymdString now := by
  refine ⟨?_, currentDate_eq_ymd now⟩
  cases db <;> simp [createInvoice, h, currentDate_eq_ymd]

/-- C7 witness: a concrete creation at UTC instant 2026-10-11T03:04:05.006Z
inserts with date `2026-10-11`. -/
theorem create_insert_uses_current_date_witness :
    (createInvoice .ok ⟨2026, 10, 11, 3, 4, 5, 6⟩ ⟨none, none⟩
      ⟨some "c1", some "5", some "pending"⟩).2.head? =
      some (Effect.sqlInsert "c1" 500 "pending" "2026-10-11") := by
  have h := (create_insert_uses_current_date .ok ⟨2026, 10, 11, 3, 4, 5, 6⟩ ⟨none, none⟩
    ⟨some "c1", some "5", some "pending"⟩ ⟨"c1", 5, .pending⟩
    (by with_unfolding_all rfl)).1
  rw [h]
  with_unfolding_all rfl

/-- C8: for every valid update payload, the single SQL statement of
`updateInvoice` is the `UPDATE ... WHERE id` assigning exactly
`customer_id`, `amount` and `status`; applying it to any store overwrites
those three columns on the rows matching the id and leaves the `date`
column (and every non-matching row) unchanged. -/
theorem update_overwrites_only_three_columns (db : DbOutcome) (i : String)
    (st : State) (fd : FormData) (v : ValidatedFields) (rows : List InvoiceRow)
    (h : UpdateInvoice.safeParse fd = .ok v) :
    (updateInvoice db i st fd).2.head? =
      some (Effect.sqlUpdate i v.customerId (amountInCents v.amount) (statusText v.status)) ∧
    List.Forall₂ (fun old new =>
      new.date = old.date ∧ new.id = old.id ∧
      (old.id = i → new.customer_id = v.customerId ∧
        new.amount = amountInCents v.amount ∧ new.status = statusText v.status) ∧
      (old.id ≠ i → new = old))
      rows (applySqlUpdate rows i v.customerId (amountInCents v.amount) (statusText v.status)) := by
  refine ⟨?_, applySqlUpdate_forall2 rows i _ _ _⟩
  cases db <;> simp [updateInvoice, h]

/-- C8 witness: updating `inv1` with customer `c2`, amount `5`, status
`paid` issues exactly that `UPDATE` statement (amount stored as 500 minor
units, no date assignment). -/
theorem update_overwrites_only_three_columns_witness :
    (updateInvoice .ok "inv1" ⟨none, none⟩ ⟨some "c2", some "5", some "paid"⟩).2.head? =
      some (Effect.sqlUpdate "inv1" "c2" 500 "paid") := by
  have h := (update_overwrites_only_three_columns .ok "inv1" ⟨none, none⟩
    ⟨some "c2", some "5", some "paid"⟩ ⟨"c2", 5, .paid⟩
    [⟨"inv1", "c1", 1000, "pending", "2024-01-15"⟩]
    (by with_unfolding_all rfl)).1
  rw [h]
  with_unfolding_all rfl

/-- C9: `CreateInvoice` and `UpdateInvoice` are the same omitted schema,
so every raw payload has identical validation outcomes in both actions:
identical parse results, identical accumulated field errors on failure
(only the summary message differs between the two actions), and identical
validated fields on success. -/
theorem create_update_same_validation :
    CreateInvoice = UpdateInvoice ∧
    (∀ fd, CreateInvoice.safeParse fd = UpdateInvoice.safeParse fd) ∧
    (∀ (db : DbOutcome) (now : UTCDateTime) (i : String) (st : State) (fd : FormData)
        (e : FieldErrors), CreateInvoice.safeParse fd = .error e →
      createInvoice db now st fd =
        (.ok (.validationError e "Missing Fields. Failed to Create Invoice."), []) ∧
      updateInvoice db i st fd =
        (.ok (.validationError e "Missing Fields. Failed to Update Invoice."), [])) ∧
    (∀ fd v, CreateInvoice.safeParse fd = .ok v → UpdateInvoice.safeParse fd = .ok v) := by
  refine ⟨rfl, fun fd => rfl, ?_, fun fd v h => h⟩
  intro db now i st fd e h
  have h2 : UpdateInvoice.safeParse fd = .error e := h
  exact ⟨by simp [createInvoice, h], by simp [updateInvoice, h2]⟩

/-- C9 witness: a payload failing create validation fails update
validation with the very same field errors and the update summary. -/
theorem create_update_same_validation_witness :
    updateInvoice .ok "i1" ⟨none, none⟩ ⟨none, none, none⟩ =
      (.ok (.validationError ⟨[customerIdErrorMsg], [gtErrorMsg], [statusErrorMsg]⟩
        "Missing Fields. Failed to Update Invoice."), []) :=
  (create_update_same_validation.2.2.1 .ok ⟨2026, 10, 11, 0, 0, 0, 0⟩ "i1" ⟨none, none⟩
    ⟨none, none, none⟩ ⟨[customerIdErrorMsg], [gtErrorMsg], [statusErrorMsg]⟩
    (by with_unfolding_all rfl)).2

/-- C10: when the amount field is absent, `Number(null)` coerces it to 0,
which fails the strictly-greater-than-0 bound, so the caller receives the
amount-greater-than-usd-0 message in `fieldErrors.amount` (not a
missing-field or type error) and no persistence occurs. -/
theorem missing_amount_coerces_to_zero (db : DbOutcome) (now : UTCDateTime)
    (st : State) (fd : FormData) (h : fd.amount = none) :
    jsNumber fd.amount = some 0 ∧
    ∃ e : FieldErrors,
      createInvoice db now st fd =
        (.ok (.validationError e "Missing Fields. Failed to Create Invoice."), []) ∧
      e.amount = [gtErrorMsg] := by
  constructor
  · rw [h]; rfl
  · have ha : CreateInvoice.amount fd.amount = .error [gtErrorMsg] := by
      rw [h]
      with_unfolding_all rfl
    have hp := safeParse_error_of_amount CreateInvoice fd [gtErrorMsg] ha
    exact ⟨⟨errList (CreateInvoice.customerId fd.customerId), [gtErrorMsg],
      errList (CreateInvoice.status fd.status)⟩, by simp [createInvoice, hp], rfl⟩

/-- C10 witness: a payload with the amount key absent gets exactly the
amount-greater-than-usd-0 message. -/
theorem missing_amount_coerces_to_zero_witness :
    jsNumber (FormData.amount ⟨some "c1", none, some "pending"⟩) = some 0 ∧
    ∃ e : FieldErrors,
      createInvoice .ok ⟨2026, 10, 11, 0, 0, 0, 0⟩ ⟨none, none⟩ ⟨some "c1", none, some "pending"⟩ =
        (.ok (.validationError e "Missing Fields. Failed to Create Invoice."), []) ∧
      e.amount = [gtErrorMsg] :=
  missing_amount_coerces_to_zero .ok ⟨2026, 10, 11, 0, 0, 0, 0⟩ ⟨none, none⟩
    ⟨some "c1", none, some "pending"⟩ rfl
